import Mathlib

/-!
Verification of the BountyOS "Obsidian" bounty-discovery pipeline core.

Go strings are modelled as lists of characters (`GoStr`); all inputs of
interest are ASCII, where Go's byte-wise `len`, slicing and case mapping
agree with the character-wise model.  Wall-clock times are modelled as
integers (unix seconds), so `time.Since(t)` becomes `now - t` and
`time.Hour` becomes `3600`.
-/

/-- Go strings, modelled as lists of characters (one byte per character for
the ASCII inputs the pipeline handles). -/
abbrev GoStr := List Char

/-- Convert a Lean string literal to the Go-string model. -/
def gs (s : String) : GoStr := s.toList

/-- `a` is character-wise at the front of `l` (Go `strings.HasPrefix l a`). -/
def leadMatch : GoStr → GoStr → Bool
  | [], _ => true
  | _ :: _, [] => false
  | a :: as, b :: bs => a == b && leadMatch as bs

/-- Go `strings.Contains hay needle`. -/
def hasSubstring : GoStr → GoStr → Bool
  | [], needle => leadMatch needle []
  | c :: t, needle => leadMatch needle (c :: t) || hasSubstring t needle

/-- The ASCII whitespace characters trimmed by Go `strings.TrimSpace`
(`unicode.IsSpace` restricted to ASCII). -/
def isGoSpace (c : Char) : Bool :=
  c == ' ' || c == '\t' || c == '\n' || c == '\r' || c == '\x0b' || c == '\x0c'

/-- Go `strings.TrimSpace` (ASCII whitespace). -/
def goTrimSpace (s : GoStr) : GoStr :=
  ((s.dropWhile isGoSpace).reverse.dropWhile isGoSpace).reverse

/-- Go `strings.ToUpper` (ASCII). -/
def goToUpper (s : GoStr) : GoStr := s.map Char.toUpper

/-- Go `strings.ToLower` (ASCII). -/
def goToLower (s : GoStr) : GoStr := s.map Char.toLower

/-- Go `strings.ReplaceAll s (String.mk [c]) ""` for a single character. -/
def removeChar (c : Char) (s : GoStr) : GoStr := s.filter (fun x => !(x == c))

/-- Go `strings.ReplaceAll s (String.mk [c]) " "` for a single character. -/
def replaceCharWithSpace (c : Char) (s : GoStr) : GoStr :=
  s.map (fun x => if x == c then ' ' else x)

/-- Helper for `goFields`: accumulate the current field (reversed). -/
def fieldsAux : GoStr → GoStr → List GoStr
  | [], acc => if acc = [] then [] else [acc.reverse]
  | c :: t, acc =>
    if isGoSpace c then
      if acc = [] then fieldsAux t [] else acc.reverse :: fieldsAux t []
    else fieldsAux t (c :: acc)

/-- Go `strings.Fields` (split around runs of ASCII whitespace). -/
def goFields (s : GoStr) : List GoStr := fieldsAux s []

/-- `c` is an ASCII letter. -/
def isAlphaCh (c : Char) : Bool := ('a' ≤ c && c ≤ 'z') || ('A' ≤ c && c ≤ 'Z')

/-- `c` is an ASCII digit. -/
def isDigitCh (c : Char) : Bool := '0' ≤ c && c ≤ '9'

/-- `c` is an ASCII hex digit. -/
def isHexDigitCh (c : Char) : Bool :=
  isDigitCh c || ('a' ≤ c && c ≤ 'f') || ('A' ≤ c && c ≤ 'F')

/-! ## Model of Go `net/url.ParseRequestURI`

Modelled from the Go standard library's `url.parse(rawURL, viaRequest=true)`:
control bytes are rejected, the empty URL is rejected, `"*"` parses to the
path `*`, a scheme is split off per `getScheme`, everything from the first
`?` on is the (unvalidated) query, a rest that does not start with `/` is
opaque when a scheme is present and an error otherwise, and with a scheme a
`//` prefix introduces an authority whose host must pass Go's host-character
and optional-port checks.  Simplifications (documented, irrelevant for the
claims): percent-escapes are checked as `%` + two hex digits everywhere, and
userinfo is checked only against Go's `validUserinfo` character set. -/

/-- Go `stringContainsCTLByte`. -/
def isCTLByte (c : Char) : Bool := c.toNat < 0x20 || c.toNat == 0x7f

/-- A raw URL contains a control byte. -/
def containsCTL (s : GoStr) : Bool := s.any isCTLByte

/-- Result of Go `getScheme`. -/
inductive SchemeResult where
  | plain
  | found (scheme rest : GoStr)
  | bad
deriving DecidableEq

/-- Go `getScheme`: `acc` holds the characters consumed so far. -/
def getSchemeAux (acc : GoStr) : GoStr → SchemeResult
  | [] => .plain
  | c :: cs =>
    if isAlphaCh c then getSchemeAux (acc ++ [c]) cs
    else if isDigitCh c || c == '+' || c == '-' || c == '.' then
      (if acc = [] then .plain else getSchemeAux (acc ++ [c]) cs)
    else if c == ':' then
      (if acc = [] then .bad else .found acc cs)
    else .plain

/-- Percent-escapes are well-formed (`%` followed by two hex digits). -/
def validEscapes : GoStr → Bool
  | [] => true
  | '%' :: a :: b :: rest => isHexDigitCh a && isHexDigitCh b && validEscapes rest
  | '%' :: _ => false
  | _ :: rest => validEscapes rest

/-- Characters Go's `unescape(_, encodeHost)` accepts unescaped in a host. -/
def hostAllowedChar (c : Char) : Bool :=
  isAlphaCh c || isDigitCh c ||
  c == '-' || c == '.' || c == '_' || c == '~' ||
  c == '!' || c == '$' || c == '&' || c == '\'' || c == '(' || c == ')' ||
  c == '*' || c == '+' || c == ',' || c == ';' || c == '=' ||
  c == ':' || c == '[' || c == ']' || c == '<' || c == '>' || c == '"' || c == '%'

/-- Characters Go's `validUserinfo` accepts. -/
def userinfoAllowedChar (c : Char) : Bool :=
  isAlphaCh c || isDigitCh c ||
  c == '-' || c == '.' || c == '_' || c == '~' ||
  c == '!' || c == '$' || c == '&' || c == '\'' || c == '(' || c == ')' ||
  c == '*' || c == '+' || c == ',' || c == ';' || c == '=' ||
  c == ':' || c == '%' || c == '@'

/-- Go `validOptionalPort`. -/
def validOptionalPort : GoStr → Bool
  | [] => true
  | ':' :: rest => rest.all isDigitCh
  | _ => false

/-- The suffix of `s` starting at its last `':'` (empty if there is none). -/
def portSuffix (s : GoStr) : GoStr :=
  if s.any (· == ':') then
    ':' :: (s.reverse.takeWhile (fun c => !(c == ':'))).reverse
  else []

/-- Go `parseHost` (character-level checks; see the module note). -/
def parseHost (host : GoStr) : Option GoStr :=
  match host with
  | '[' :: _ =>
    if host.any (· == ']') then
      let afterLast := (host.reverse.takeWhile (fun c => !(c == ']'))).reverse
      if validOptionalPort afterLast && host.all hostAllowedChar && validEscapes host then
        some host
      else none
    else none
  | _ =>
    let colonPort := portSuffix host
    if colonPort ≠ [] ∧ validOptionalPort colonPort = false then none
    else if host.all hostAllowedChar && validEscapes host then some host else none

/-- Go `parseAuthority`: userinfo is everything before the last `'@'`. -/
def parseAuthority (authority : GoStr) : Option GoStr :=
  if authority.any (· == '@') then
    let user := (authority.reverse.dropWhile (fun c => !(c == '@'))).reverse.dropLast
    let hostPart := (authority.reverse.takeWhile (fun c => !(c == '@'))).reverse
    if user.all userinfoAllowedChar && validEscapes user then parseHost hostPart else none
  else parseHost authority

/-- Parsed URL shape: scheme, opaque part, host, path. -/
structure GoURL where
  scheme : GoStr
  opq : GoStr
  host : GoStr
  path : GoStr
deriving DecidableEq

/-- Continuation of `url.parse` after the scheme has been split off. -/
def parseAfterScheme (scheme rest0 : GoStr) : Option GoURL :=
  let rest := rest0.takeWhile (fun c => !(c == '?'))
  match rest with
  | '/' :: '/' :: tail =>
    if scheme = [] then
      if validEscapes rest then some ⟨scheme, [], [], rest⟩ else none
    else
      let authority := tail.takeWhile (fun c => !(c == '/'))
      let pathPart := tail.dropWhile (fun c => !(c == '/'))
      match parseAuthority authority with
      | none => none
      | some h => if validEscapes pathPart then some ⟨scheme, [], h, pathPart⟩ else none
  | '/' :: _ =>
    if validEscapes rest then some ⟨scheme, [], [], rest⟩ else none
  | _ =>
    if scheme ≠ [] then some ⟨scheme, rest, [], []⟩ else none

/-- Model of Go `url.ParseRequestURI` (see the module note above). -/
def goParseRequestURI (raw : GoStr) : Option GoURL :=
  if containsCTL raw then none
  else if raw = [] then none
  else if raw = ['*'] then some ⟨[], [], [], ['*']⟩
  else
    match getSchemeAux [] raw with
    | .bad => none
    | .plain => parseAfterScheme [] raw
    | .found s r => parseAfterScheme (goToLower s) r

/-! ## internal/security: URL and content validation -/

/-- The `dangerousDomains` list of `security.ValidateURL`. -/
def dangerousDomains : List GoStr :=
  [gs "localhost", gs "127.0.0.1", gs "0.0.0.0", gs "file://", gs "ftp://", gs "javascript:"]

/-- `security.ValidateURL`; the `BOUNTYOS_ALLOW_LOCAL_URLS` environment
variable is the explicit `allowLocalURLs` argument. -/
def ValidateURL (allowLocalURLs : Bool) (urlStr : GoStr) : Bool :=
  if urlStr = [] then false
  else
    match goParseRequestURI urlStr with
    | none => false
    | some u =>
      if u.scheme ≠ gs "http" ∧ u.scheme ≠ gs "https" then false
      else if allowLocalURLs then true
      else !(dangerousDomains.any (fun d => hasSubstring (goToLower u.host) d))

/-- The cutset of `security.NormalizeURL`'s `strings.TrimRight`. -/
def trimRightCutset : GoStr := gs ".,;!?)\"'"

/-- `security.NormalizeURL`. -/
def NormalizeURL (urlStr : GoStr) : GoStr :=
  let trimmed := goTrimSpace urlStr
  if trimmed = [] then []
  else
    let t1 := removeChar '\n' trimmed
    let t2 := removeChar '\r' t1
    let t3 := removeChar '\t' t2
    let t4 := match goFields t3 with
      | [] => t3
      | f :: _ => f
    (t4.reverse.dropWhile (fun c => trimRightCutset.contains c)).reverse

/-- `security.SanitizeString`. -/
def SanitizeString (input : GoStr) : GoStr :=
  if input = [] then []
  else
    let s1 := replaceCharWithSpace '\n' input
    let s2 := replaceCharWithSpace '\r' s1
    let s3 := replaceCharWithSpace '\t' s2
    if 1000 < s3.length then s3.take 1000 ++ gs "..." else s3

/-- The whitespace class of Go's regexp `\s` (`[\t\n\f\r ]`). -/
def isRegexSpace (c : Char) : Bool :=
  c == '\t' || c == '\n' || c == '\x0c' || c == '\r' || c == ' '

/-- One inline-handler alternative of the XSS regex: `kw\s*=` at the front. -/
def handlerMatch (kw : GoStr) (l : GoStr) : Bool :=
  leadMatch kw l && ((l.drop kw.length).dropWhile isRegexSpace).head? == some '='

/-- One position of the XSS regex
`(?i)<script[^>]*>|</script>|javascript:|onerror\s*=|onclick\s*=|onload\s*=`
(on already-lowercased text). -/
def scriptAlternativeAt (l : GoStr) : Bool :=
  (leadMatch (gs "<script") l && (l.drop 7).any (· == '>')) ||
  leadMatch (gs "</script>") l ||
  leadMatch (gs "javascript:") l ||
  handlerMatch (gs "onerror") l ||
  handlerMatch (gs "onclick") l ||
  handlerMatch (gs "onload") l

/-- Does `p` hold at some position (suffix) of the list? -/
def anyPos (p : GoStr → Bool) : GoStr → Bool
  | [] => false
  | c :: t => p (c :: t) || anyPos p t

/-- `security.containsScriptTags` (case-insensitive regex scan). -/
def containsScriptTags (content : GoStr) : Bool :=
  anyPos scriptAlternativeAt (goToLower content)

/-! ## Model of Go `time.Parse(time.RFC3339, s)`

Modelled from Go's strict `parseRFC3339` fast path: `yyyy-mm-ddThh:mm:ss`,
an optional fraction `.digits`, and a zone `Z` or `±hh:mm` (the lax fallback
of the general layout parser differs only on exotic inputs such as a comma
fraction separator, which the claims never involve). -/

/-- Numeric value of an ASCII digit character. -/
def digitVal (c : Char) : Nat := c.toNat - 48

/-- Gregorian leap year. -/
def isLeapYear (y : Nat) : Bool := y % 4 == 0 && (y % 100 != 0 || y % 400 == 0)

/-- Days in a month (Go `daysIn`). -/
def daysInMonth (m y : Nat) : Nat :=
  if m == 2 then (if isLeapYear y then 29 else 28)
  else if m == 4 || m == 6 || m == 9 || m == 11 then 30
  else 31

/-- The RFC3339 zone suffix: `Z` or `±hh:mm`. -/
def rfc3339Zone : GoStr → Bool
  | ['Z'] => true
  | [s, h1, h2, ':', m1, m2] =>
    (s == '+' || s == '-') && isDigitCh h1 && isDigitCh h2 && isDigitCh m1 && isDigitCh m2 &&
    decide (digitVal h1 * 10 + digitVal h2 ≤ 23) && decide (digitVal m1 * 10 + digitVal m2 ≤ 59)
  | _ => false

/-- After the seconds: an optional `.digits` fraction, then the zone. -/
def rfc3339AfterSeconds (s : GoStr) : Bool :=
  match s with
  | '.' :: c :: rest =>
    if isDigitCh c then rfc3339Zone ((c :: rest).dropWhile isDigitCh)
    else rfc3339Zone s
  | _ => rfc3339Zone s

/-- Model of Go `time.Parse(time.RFC3339, s)` succeeding. -/
def rfc3339Parses (s : GoStr) : Bool :=
  match s with
  | y1 :: y2 :: y3 :: y4 :: '-' :: mo1 :: mo2 :: '-' :: d1 :: d2 :: 'T' ::
    h1 :: h2 :: ':' :: mi1 :: mi2 :: ':' :: sc1 :: sc2 :: rest =>
    ([y1, y2, y3, y4, mo1, mo2, d1, d2, h1, h2, mi1, mi2, sc1, sc2].all isDigitCh) &&
    (let year := ((digitVal y1 * 10 + digitVal y2) * 10 + digitVal y3) * 10 + digitVal y4
     let month := digitVal mo1 * 10 + digitVal mo2
     let day := digitVal d1 * 10 + digitVal d2
     let hour := digitVal h1 * 10 + digitVal h2
     let minute := digitVal mi1 * 10 + digitVal mi2
     let second := digitVal sc1 * 10 + digitVal sc2
     decide (1 ≤ month) && decide (month ≤ 12) &&
     decide (1 ≤ day) && decide (day ≤ daysInMonth month year) &&
     decide (hour ≤ 23) && decide (minute ≤ 59) && decide (second ≤ 59)) &&
    rfc3339AfterSeconds rest
  | _ => false

/-! ## internal/security: GitHub response validation -/

/-- The fields of a parsed GitHub search item that validation inspects
(`security.GitHubIssue`; labels are not validated). -/
structure GitHubIssue where
  title : GoStr
  htmlURL : GoStr
  createdAt : GoStr
  body : GoStr
deriving DecidableEq

deriving instance DecidableEq for Except

/-- `security.validateGitHubIssue`: the sequential field checks, first
failure wins. -/
def validateGitHubIssue (issue : GitHubIssue) : Except String Unit :=
  if goTrimSpace issue.title = [] then .error "title cannot be empty"
  else if goTrimSpace issue.htmlURL = [] then .error "html_url cannot be empty"
  else if (goParseRequestURI issue.htmlURL).isSome = false then .error "invalid html_url format"
  else if goTrimSpace issue.createdAt = [] then .error "created_at cannot be empty"
  else if rfc3339Parses issue.createdAt = false then .error "invalid created_at format (expected RFC3339)"
  else if 500 < issue.title.length then .error "title too long (max 500 characters)"
  else if containsScriptTags issue.title = true ∨ containsScriptTags issue.body = true then
    .error "potential XSS content detected"
  else .ok ()

/-- The item loop of `security.ValidateGitHubResponse`: the first invalid
item's error aborts the whole page. -/
def validateItems : List GitHubIssue → Except String Unit
  | [] => .ok ()
  | i :: rest =>
    match validateGitHubIssue i with
    | .error e => .error e
    | .ok () => validateItems rest

/-- `security.ValidateGitHubResponse` on an already-decoded page of items
(the empty-body and JSON-decoding failures live before this point). -/
def ValidateGitHubResponse (items : List GitHubIssue) : Except String (List GitHubIssue) :=
  match validateItems items with
  | .error e => .error e
  | .ok () => .ok items

/-- Acceptance condition transcribed from the claim's words (C3): the item's
title is non-empty and at most 500 characters, its URL is a syntactically
valid absolute URL (parses and carries a scheme), its creation timestamp
parses as RFC3339, and neither title nor body contains an injection
pattern. -/
def claimValidAccepts (issue : GitHubIssue) : Bool :=
  decide (issue.title ≠ []) && decide (issue.title.length ≤ 500) &&
  (match goParseRequestURI issue.htmlURL with
   | some u => decide (u.scheme ≠ [])
   | none => false) &&
  rfc3339Parses issue.createdAt &&
  !containsScriptTags issue.title && !containsScriptTags issue.body

/-! ## internal/core: data model and scoring -/

/-- `core.Bounty`; timestamps are unix seconds. -/
structure Bounty where
  id : GoStr
  title : GoStr
  platform : GoStr
  reward : GoStr
  currency : GoStr
  url : GoStr
  createdAt : Int
  score : Int
  description : GoStr
  tags : List GoStr
  expiresAt : Option Int
  paymentType : GoStr
deriving DecidableEq

/-- `core.ScoringConfig`. -/
structure ScoringConfig where
  urgencyKeywords : List GoStr
  devTaskKeywords : List GoStr
  automationKeywords : List GoStr
  securityKeywords : List GoStr
  auditKeywords : List GoStr

/-- `core.PaymentConfig`. -/
structure PaymentConfig where
  cryptoCurrencies : List GoStr
  p2pMethods : List GoStr
  fiatMethods : List GoStr

/-- `core.defaultScoringConfig`. -/
def defaultScoringConfig : ScoringConfig where
  urgencyKeywords := [gs "URGENT", gs "ASAP", gs "CRITICAL", gs "IMMEDIATE", gs "EMERGENCY"]
  devTaskKeywords := [gs "FIX", gs "BUG", gs "API", gs "INTEGRATION", gs "SMART CONTRACT", gs "BLOCKCHAIN"]
  automationKeywords := [gs "SCRIPT", gs "BOT"]
  securityKeywords := [gs "SECURITY", gs "VULNERABILITY", gs "PENTEST", gs "HACK", gs "EXPLOIT"]
  auditKeywords := [gs "AUDIT"]

/-- `core.defaultPaymentConfig`. -/
def defaultPaymentConfig : PaymentConfig where
  cryptoCurrencies := [gs "USDC", gs "USDT", gs "SOL", gs "ETH", gs "BTC", gs "MATIC", gs "AVAX", gs "ARB", gs "OP"]
  p2pMethods := [gs "CASHAPP", gs "VENMO", gs "CASH APP"]
  fiatMethods := [gs "USD", gs "PAYPAL", gs "STRIPE", gs "WISE"]

/-- `core.coalesceList`. -/
def coalesceList (list fallback : List GoStr) : List GoStr :=
  if list = [] then fallback else list

/-- Helper for `normalizeUpperList`: `seen` is the dedup set. -/
def normalizeUpperAux : List GoStr → List GoStr → List GoStr
  | [], _ => []
  | x :: xs, seen =>
    let t := goToUpper (goTrimSpace x)
    if t = [] then normalizeUpperAux xs seen
    else if seen.contains t then normalizeUpperAux xs seen
    else t :: normalizeUpperAux xs (t :: seen)

/-- `core.normalizeUpperList`: trim, uppercase, drop empties and duplicates. -/
def normalizeUpperList (list : List GoStr) : List GoStr := normalizeUpperAux list []

/-- `core.removeOverlap`. -/
def removeOverlap (base blacklist : List GoStr) : List GoStr :=
  if base = [] ∨ blacklist = [] then base
  else base.filter (fun item => !(blacklist.contains item))

/-- `core.normalizeScoringConfig`. -/
def normalizeScoringConfig (cfg : ScoringConfig) : ScoringConfig :=
  let d := defaultScoringConfig
  let urg := normalizeUpperList (coalesceList cfg.urgencyKeywords d.urgencyKeywords)
  let dev := normalizeUpperList (coalesceList cfg.devTaskKeywords d.devTaskKeywords)
  let auto := normalizeUpperList (coalesceList cfg.automationKeywords d.automationKeywords)
  let sec := normalizeUpperList (coalesceList cfg.securityKeywords d.securityKeywords)
  let aud := normalizeUpperList (coalesceList cfg.auditKeywords d.auditKeywords)
  { urgencyKeywords := urg
    devTaskKeywords := removeOverlap dev auto
    automationKeywords := auto
    securityKeywords := removeOverlap sec aud
    auditKeywords := aud }

/-- `core.SetScoringConfig`: the value installed in the `scoringConfig`
global is the normalized configuration. -/
def SetScoringConfig (cfg : ScoringConfig) : ScoringConfig := normalizeScoringConfig cfg

/-- `core.containsAny`. -/
def containsAny (text : GoStr) (keywords : List GoStr) : Bool :=
  keywords.any (fun keyword => !(keyword == []) && hasSubstring text keyword)

/-- `core.containsCurrency`. -/
def containsCurrency (value : GoStr) (tokens : List GoStr) : Bool :=
  let upper := goToUpper value
  let compact := upper.filter (fun c => !(c == ' '))
  tokens.any (fun token =>
    !(token == []) &&
    (let target := goToUpper token
     let targetCompact := target.filter (fun c => !(c == ' '))
     hasSubstring upper target || hasSubstring compact targetCompact))

/-- The per-tag bonus of `core.CalculateUrgency`'s tag loop. -/
def tagBonus (tag : GoStr) : Int :=
  (if hasSubstring (goToUpper tag) (gs "URGENT") then 20 else 0) +
  (if hasSubstring (goToUpper tag) (gs "HOT") then 15 else 0) +
  (if hasSubstring (goToUpper tag) (gs "DEADLINE") then 10 else 0)

/-- Sum of the tag bonuses over all tags. -/
def tagBonusList : List GoStr → Int
  | [] => 0
  | t :: ts => tagBonus t + tagBonusList ts

/-- `core.CalculateUrgency`: the "Obsidian" scoring algorithm, with the
global `scoringConfig`/`paymentConfig` passed explicitly and `time.Since`
modelled as `now - b.createdAt` in seconds. -/
def CalculateUrgency (scfg : ScoringConfig) (pcfg : PaymentConfig) (now : Int) (b : Bounty) : Int :=
  let titleUpper := goToUpper b.title
  let paymentScore : Int :=
    if containsCurrency b.currency pcfg.cryptoCurrencies then 50
    else if containsCurrency b.currency pcfg.p2pMethods then 45
    else if containsCurrency b.currency pcfg.fiatMethods then 25
    else 5
  let urgencyScore : Int := if containsAny titleUpper scfg.urgencyKeywords then 30 else 0
  let devScore : Int := if containsAny titleUpper scfg.devTaskKeywords then 15 else 0
  let autoScore : Int := if containsAny titleUpper scfg.automationKeywords then 20 else 0
  let secScore : Int := if containsAny titleUpper scfg.securityKeywords then 25 else 0
  let auditScore : Int := if containsAny titleUpper scfg.auditKeywords then 35 else 0
  let duration := now - b.createdAt
  let recencyScore : Int :=
    if duration < 3600 then 40
    else if duration < 6 * 3600 then 25
    else if duration < 24 * 3600 then 10
    else 0
  let platformUpper := goToUpper b.platform
  let superteamScore : Int := if hasSubstring platformUpper (gs "SUPERTEAM") then 15 else 0
  let bountycasterScore : Int := if hasSubstring platformUpper (gs "BOUNTYCASTER") then 10 else 0
  let bugBountyScore : Int :=
    if hasSubstring platformUpper (gs "IMMUNEFI") || hasSubstring platformUpper (gs "HACKEN") then 30 else 0
  paymentScore + urgencyScore + devScore + autoScore + secScore + auditScore +
    recencyScore + superteamScore + bountycasterScore + bugBountyScore + tagBonusList b.tags

/-! ## internal/adapters/scanners: the Retry Executor -/

/-- The outcome of one `client.Do(req)` call: a transport error, or a
response with an HTTP status code. -/
inductive Outcome where
  | transportErr
  | resp (status : Nat)
deriving DecidableEq

/-- `scanners.maxRetries`. -/
def maxRetries : Nat := 3

/-- The loop of `scanners.doRequestWithRetry`: `oracle i` is the outcome of
the request attempt with loop index `i`; the result is the number of
attempts actually made paired with `some status` on success or `none` when
the loop ends in the trailing error return. Backoff sleeps, logging and
context cancellation are outside the model. -/
def retryAux (oracle : Nat → Outcome) : Nat → Nat → Nat × Option Nat
  | _, 0 => (0, none)
  | i, fuel + 1 =>
    match oracle i with
    | .transportErr =>
      let r := retryAux oracle (i + 1) fuel
      (r.1 + 1, r.2)
    | .resp st =>
      if 500 ≤ st ∨ st = 429 then
        let r := retryAux oracle (i + 1) fuel
        (r.1 + 1, r.2)
      else (1, some st)

/-- `scanners.doRequestWithRetry` (`for i := 0; i <= maxRetries; i++`). -/
def doRequestWithRetry (oracle : Nat → Outcome) : Nat × Option Nat :=
  retryAux oracle 0 (maxRetries + 1)

/-- An attempt outcome that makes the loop try again: a transport error or
a 5xx/429 response. -/
def retriedOutcome (o : Outcome) : Prop :=
  o = .transportErr ∨ ∃ st, o = .resp st ∧ (500 ≤ st ∨ st = 429)

/-! ## cmd/obsidian: the per-record funnel -/

/-- The persistent store keyed by canonical URL (the `bounties` table:
`url TEXT PRIMARY KEY`). -/
abbrev Store := List (GoStr × Bounty)

/-- `SELECT 1 FROM bounties WHERE url = ?` has a row. -/
def containsKey (st : Store) (u : GoStr) : Bool := st.any (fun e => e.1 == u)

/-- `storage.IsNew`. -/
def IsNew (st : Store) (u : GoStr) : Bool := !(containsKey st u)

/-- `storage.Save` (`INSERT OR REPLACE` keyed by the bounty's URL). -/
def Save : Store → Bounty → Store
  | [], b => [(b.url, b)]
  | (k, v) :: rest, b => if k == b.url then (b.url, b) :: rest else (k, v) :: Save rest b

/-- The funnel's configuration bits: the reachability toggle and the
local-URL override. -/
structure FunnelConfig where
  validateLinksHTTP : Bool
  allowLocalURLs : Bool

/-- One iteration of the bounty-processing goroutine of `cmd/obsidian/main.go`:
normalize, validate, optionally probe reachability (`reachable` abstracts
`ValidateURLReachable`), sanitize, dedup, score, save.  The second component
is the bounty passed to `Save`/`Broadcast`, or `none` when the record is
dropped. -/
def processBounty (cfg : FunnelConfig) (reachable : GoStr → Bool)
    (scfg : ScoringConfig) (pcfg : PaymentConfig) (now : Int)
    (st : Store) (b0 : Bounty) : Store × Option Bounty :=
  let url := NormalizeURL b0.url
  if url == [] || !ValidateURL cfg.allowLocalURLs url then (st, none)
  else if cfg.validateLinksHTTP && !reachable url then (st, none)
  else
    let b1 : Bounty :=
      { b0 with
        url := url
        title := SanitizeString b0.title
        platform := SanitizeString b0.platform
        reward := SanitizeString b0.reward
        currency := SanitizeString b0.currency
        description := SanitizeString b0.description }
    if !IsNew st url then (st, none)
    else
      let b2 := { b1 with score := CalculateUrgency scfg pcfg now b1 }
      (Save st b2, some b2)

/-! ## Supporting lemmas -/

/-- Characters of a replacement result: the space, or an original character
different from the replaced one. -/
lemma mem_replaceCharWithSpace {x c : Char} {s : GoStr}
    (hx : x ∈ replaceCharWithSpace c s) : x = ' ' ∨ (x ∈ s ∧ x ≠ c) := by
  rcases List.mem_map.1 hx with ⟨y, hy, he⟩
  by_cases h : y = c
  · subst h
    simp only [beq_self_eq_true, if_true] at he
    exact Or.inl he.symm
  · have : (y == c) = false := by simpa using h
    rw [this] at he
    simp only [Bool.false_eq_true, if_false] at he
    exact Or.inr ⟨he ▸ hy, he ▸ h⟩

/-- A page with one invalid item makes the item loop fail. -/
lemma validateItems_error_of_mem {items : List GitHubIssue} {i : GitHubIssue}
    (hmem : i ∈ items) (hbad : validateGitHubIssue i ≠ .ok ()) :
    ∃ e, validateItems items = .error e := by
  induction items with
  | nil => simp at hmem
  | cons hd tl ih =>
    cases hv : validateGitHubIssue hd with
    | error e => exact ⟨e, by simp [validateItems, hv]⟩
    | ok u =>
      cases u
      rcases List.mem_cons.1 hmem with h | h
      · exact absurd hv (h ▸ hbad)
      · rcases ih h with ⟨e, he⟩
        exact ⟨e, by simp [validateItems, hv, he]⟩

/-- Attempts made by the retry loop never exceed the fuel. -/
lemma retryAux_fst_le (oracle : Nat → Outcome) (fuel : Nat) :
    ∀ i, (retryAux oracle i fuel).1 ≤ fuel := by
  induction fuel with
  | zero => intro i; simp [retryAux]
  | succ n ih =>
    intro i
    cases h : oracle i with
    | transportErr =>
      have := ih (i + 1)
      simp only [retryAux, h]
      omega
    | resp st =>
      by_cases hr : 500 ≤ st ∨ st = 429
      · have := ih (i + 1)
        simp only [retryAux, h, if_pos hr]
        omega
      · simp only [retryAux, h, if_neg hr]
        omega

/-- Every attempt that was followed by another attempt saw a transport
error or a 5xx/429 response. -/
lemma retryAux_retried (oracle : Nat → Outcome) (fuel : Nat) :
    ∀ i j, i ≤ j → j + 1 < i + (retryAux oracle i fuel).1 →
      retriedOutcome (oracle j) := by
  induction fuel with
  | zero =>
    intro i j hij h
    simp [retryAux] at h
    omega
  | succ n ih =>
    intro i j hij h
    cases ho : oracle i with
    | transportErr =>
      by_cases hji : j = i
      · exact Or.inl (hji ▸ ho)
      · have h' : j + 1 < i + ((retryAux oracle (i + 1) n).1 + 1) := by
          simpa [retryAux, ho] using h
        exact ih (i + 1) j (by omega) (by omega)
    | resp st =>
      by_cases hr : 500 ≤ st ∨ st = 429
      · by_cases hji : j = i
        · exact Or.inr ⟨st, hji ▸ ho, hr⟩
        · have h' : j + 1 < i + ((retryAux oracle (i + 1) n).1 + 1) := by
            simpa [retryAux, ho, hr] using h
          exact ih (i + 1) j (by omega) (by omega)
      · exfalso
        have h' : j + 1 < i + 1 := by simpa [retryAux, ho, hr] using h
        omega

/-- A `false` result of `List.contains` rules out membership. -/
lemma notMem_of_contains_eq_false {l : List GoStr} {s : GoStr}
    (h : l.contains s = false) : s ∉ l := by
  intro hmem
  have hel : List.elem s l = true := List.elem_iff.mpr hmem
  rw [List.contains] at h
  rw [hel] at h
  simp at h

/-- Members of `removeOverlap base blacklist` never come from the
blacklist. -/
lemma notMem_blacklist_of_mem_removeOverlap {base bl : List GoStr} {s : GoStr}
    (h : s ∈ removeOverlap base bl) : s ∉ bl := by
  unfold removeOverlap at h
  by_cases hc : base = [] ∨ bl = []
  · rw [if_pos hc] at h
    rcases hc with hb | hb
    · subst hb; simp at h
    · subst hb; simp
  · rw [if_neg hc] at h
    have hpred := (List.mem_filter.1 h).2
    simp only [Bool.not_eq_true'] at hpred
    exact notMem_of_contains_eq_false hpred

/-! ## Claims -/

/-- C10: `SanitizeString` always yields a bounded single line: the result
contains no newline, carriage return, or tab, and its length is at most
1003 (1000 plus the `"..."` truncation marker). -/
theorem sanitize_yields_bounded_single_line (s : GoStr) :
    '\n' ∉ SanitizeString s ∧ '\r' ∉ SanitizeString s ∧ '\t' ∉ SanitizeString s ∧
    (SanitizeString s).length ≤ 1003 := by
  have hclean : ∀ x : Char, x = '\n' ∨ x = '\r' ∨ x = '\t' →
      x ∉ replaceCharWithSpace '\t' (replaceCharWithSpace '\r' (replaceCharWithSpace '\n' s)) := by
    intro x hx hmem
    have hsp : x ≠ ' ' := by rcases hx with rfl | rfl | rfl <;> decide
    rcases mem_replaceCharWithSpace hmem with h | ⟨h2, ht⟩
    · exact hsp h
    rcases mem_replaceCharWithSpace h2 with h | ⟨h3, hr⟩
    · exact hsp h
    rcases mem_replaceCharWithSpace h3 with h | ⟨_, hn⟩
    · exact hsp h
    rcases hx with rfl | rfl | rfl
    · exact hn rfl
    · exact hr rfl
    · exact ht rfl
  have hlen3 : ∀ (c : Char) (t : GoStr), (replaceCharWithSpace c t).length = t.length := by
    intro c t; simp [replaceCharWithSpace]
  by_cases h0 : s = []
  · subst h0; simp [SanitizeString]
  · simp only [SanitizeString, if_neg h0]
    set s3 := replaceCharWithSpace '\t' (replaceCharWithSpace '\r' (replaceCharWithSpace '\n' s)) with hs3
    by_cases hbig : 1000 < s3.length
    · rw [if_pos hbig]
      have hdots : ∀ x : Char, x ∈ gs "..." → x = '.' := by decide
      have hmem : ∀ x : Char, x = '\n' ∨ x = '\r' ∨ x = '\t' → x ∉ s3.take 1000 ++ gs "..." := by
        intro x hx hmm
        rcases List.mem_append.1 hmm with hl | hr
        · exact hclean x hx (List.take_subset 1000 s3 hl)
        · have := hdots x hr
          rcases hx with rfl | rfl | rfl <;> simp_all
      refine ⟨hmem _ (Or.inl rfl), hmem _ (Or.inr (Or.inl rfl)), hmem _ (Or.inr (Or.inr rfl)), ?_⟩
      have : (gs "...").length = 3 := by decide
      simp only [List.length_append, List.length_take, this]
      omega
    · rw [if_neg hbig]
      exact ⟨hclean _ (Or.inl rfl), hclean _ (Or.inr (Or.inl rfl)), hclean _ (Or.inr (Or.inr rfl)),
        by omega⟩

/-- C1: the response validator fails closed: if any single item of a page
fails validation, the whole page is rejected with an error, so zero items
are accepted. -/
theorem validator_fails_closed (items : List GitHubIssue)
    (h : ∃ i ∈ items, validateGitHubIssue i ≠ .ok ()) :
    ∃ e, ValidateGitHubResponse items = .error e := by
  rcases h with ⟨i, hmem, hbad⟩
  rcases validateItems_error_of_mem hmem hbad with ⟨e, he⟩
  exact ⟨e, by simp [ValidateGitHubResponse, he]⟩

/-- A valid item as appearing in the repository's validator test. -/
def cleanIssue : GitHubIssue where
  title := gs "Test Issue"
  htmlURL := gs "https://github.com/test/test/issues/1"
  createdAt := gs "2023-01-01T00:00:00Z"
  body := gs "Test body"

/-- The spec's XSS example item. -/
def xssIssue : GitHubIssue where
  title := gs "<script>alert(1)</script>"
  htmlURL := gs "https://github.com/test/test/issues/2"
  createdAt := gs "2023-01-01T00:00:00Z"
  body := gs "Test body"

/-- Witness for C1: a batch with one item titled `<script>alert(1)</script>`
yields an error, hence zero passing items, not 1-of-N. -/
theorem validator_fails_closed_witness :
    ∃ e, ValidateGitHubResponse [cleanIssue, xssIssue] = .error e :=
  validator_fails_closed [cleanIssue, xssIssue]
    ⟨xssIssue, List.mem_cons_of_mem cleanIssue (List.mem_cons_self xssIssue []), by decide⟩

/-- C2 counterexample: with every attempt failing at the transport level,
`doRequestWithRetry` performs 4 attempts (not at most 3), and the transport
error does not propagate immediately (that would be exactly 1 attempt). -/
theorem retry_claim_counterexample :
    (doRequestWithRetry (fun _ => Outcome.transportErr)).1 = 4 ∧
    ¬ (doRequestWithRetry (fun _ => Outcome.transportErr)).1 ≤ 3 := by
  constructor
  · decide
  · decide

/-- C2 (amended): the Retry Executor makes at most 4 attempts (the initial
attempt plus up to `maxRetries = 3` retries); every attempt that is followed
by another one saw a 5xx/429 response or a transport-level error (so those,
and only those, are retried); and a response with any other status is
returned immediately after a single attempt. -/
theorem retry_executor_behavior (oracle : Nat → Outcome) :
    (doRequestWithRetry oracle).1 ≤ 4 ∧
    (∀ j, j + 1 < (doRequestWithRetry oracle).1 → retriedOutcome (oracle j)) ∧
    (∀ st, oracle 0 = .resp st → ¬(500 ≤ st ∨ st = 429) →
      doRequestWithRetry oracle = (1, some st)) := by
  refine ⟨?_, ?_, ?_⟩
  · simpa [doRequestWithRetry, maxRetries] using retryAux_fst_le oracle (maxRetries + 1) 0
  · intro j hj
    exact retryAux_retried oracle (maxRetries + 1) 0 j (Nat.zero_le j)
      (by simpa [doRequestWithRetry] using hj)
  · intro st h0 hn
    simp [doRequestWithRetry, maxRetries, retryAux, h0, hn]

/-- Witness for the amended C2: a single 404 response is returned
immediately, after exactly one attempt. -/
theorem retry_executor_behavior_witness :
    doRequestWithRetry (fun _ => Outcome.resp 404) = (1, some 404) :=
  (retry_executor_behavior (fun _ => Outcome.resp 404)).2.2 404 rfl (by decide)

/-- C9: for every scoring configuration installed via `SetScoringConfig`,
the effective dev-task keywords are disjoint from the automation keywords
and the effective security keywords are disjoint from the audit keywords;
the built-in default lists are disjoint as well. -/
theorem scoring_keyword_lists_disjoint :
    (∀ (cfg : ScoringConfig) (s : GoStr),
      (s ∈ (SetScoringConfig cfg).devTaskKeywords → s ∉ (SetScoringConfig cfg).automationKeywords) ∧
      (s ∈ (SetScoringConfig cfg).securityKeywords → s ∉ (SetScoringConfig cfg).auditKeywords)) ∧
    (∀ s : GoStr,
      (s ∈ defaultScoringConfig.devTaskKeywords → s ∉ defaultScoringConfig.automationKeywords) ∧
      (s ∈ defaultScoringConfig.securityKeywords → s ∉ defaultScoringConfig.auditKeywords)) := by
  constructor
  · intro cfg s
    constructor
    · intro hdev
      exact notMem_blacklist_of_mem_removeOverlap
        (by simpa [SetScoringConfig, normalizeScoringConfig] using hdev)
    · intro hsec
      exact notMem_blacklist_of_mem_removeOverlap
        (by simpa [SetScoringConfig, normalizeScoringConfig] using hsec)
  · intro s
    constructor
    · intro hdev hauto
      have h1 : s ∈ defaultScoringConfig.devTaskKeywords := hdev
      simp only [defaultScoringConfig, List.mem_cons, List.not_mem_nil, or_false] at h1 hauto
      rcases h1 with rfl | rfl | rfl | rfl | rfl | rfl <;> rcases hauto with h | h <;> revert h <;> decide
    · intro hsec haud
      have h1 : s ∈ defaultScoringConfig.securityKeywords := hsec
      simp only [defaultScoringConfig, List.mem_cons, List.not_mem_nil, or_false] at h1 haud
      rcases h1 with rfl | rfl | rfl | rfl | rfl <;> revert haud <;> decide

/-- Witness for C9: installing the default configuration leaves `"FIX"` in
the dev-task list and out of the automation list. -/
theorem scoring_keyword_lists_disjoint_witness :
    gs "FIX" ∉ (SetScoringConfig defaultScoringConfig).automationKeywords :=
  (scoring_keyword_lists_disjoint.1 defaultScoringConfig (gs "FIX")).1 (by decide)

/-- A URL that does not parse never validates. -/
lemma ValidateURL_eq_false_of_parse_none {s : GoStr} (a : Bool)
    (hp : goParseRequestURI s = none) : ValidateURL a s = false := by
  by_cases hs : s = []
  · simp [ValidateURL, hs]
  · simp [ValidateURL, hs, hp]

/-- A URL whose parsed scheme is neither `http` nor `https` never
validates, with or without the local-URL override. -/
lemma ValidateURL_eq_false_of_bad_scheme {s : GoStr} {u : GoURL} (a : Bool)
    (hp : goParseRequestURI s = some u) (h1 : u.scheme ≠ gs "http")
    (h2 : u.scheme ≠ gs "https") : ValidateURL a s = false := by
  by_cases hs : s = []
  · simp [ValidateURL, hs]
  · simp [ValidateURL, hs, hp, h1, h2]

/-- Without the override, a host containing a dangerous substring never
validates. -/
lemma ValidateURL_eq_false_of_dangerous {s : GoStr} {u : GoURL}
    (hp : goParseRequestURI s = some u)
    (hd : ∃ d ∈ dangerousDomains, hasSubstring (goToLower u.host) d = true) :
    ValidateURL false s = false := by
  by_cases hs : s = []
  · simp [ValidateURL, hs]
  · have hany : dangerousDomains.any (fun d => hasSubstring (goToLower u.host) d) = true :=
      List.any_eq_true.2 hd
    by_cases hsch : u.scheme ≠ gs "http" ∧ u.scheme ≠ gs "https"
    · simp [ValidateURL, hs, hp, hsch]
    · simp [ValidateURL, hs, hp, hsch, hany]

/-- C8 counterexample: `http://169.254.1.1` has a link-local host, yet with
the local-URL override disabled the validator accepts it (the dangerous-host
list only covers loopback literals, not link-local ranges). -/
theorem url_validation_linklocal_counterexample :
    (goParseRequestURI (gs "http://169.254.1.1")).map GoURL.host = some (gs "169.254.1.1") ∧
    ValidateURL false (gs "http://169.254.1.1") = true := by
  constructor
  · decide
  · decide

/-- C8 (amended): the funnel's URL validation rejects every URL that does
not parse, every URL whose scheme is not `http`/`https` (even when the
local-URL override is enabled), and — unless the override is enabled —
every URL whose host contains one of the loopback literals `localhost`,
`127.0.0.1`, or `0.0.0.0`; link-local hosts are not covered by the
dangerous-host list. -/
theorem url_validation_rejects_untrusted (s : GoStr) :
    (∀ a : Bool, goParseRequestURI s = none → ValidateURL a s = false) ∧
    (∀ (a : Bool) (u : GoURL), goParseRequestURI s = some u →
      u.scheme ≠ gs "http" → u.scheme ≠ gs "https" → ValidateURL a s = false) ∧
    (∀ u : GoURL, goParseRequestURI s = some u →
      (hasSubstring (goToLower u.host) (gs "localhost") = true ∨
       hasSubstring (goToLower u.host) (gs "127.0.0.1") = true ∨
       hasSubstring (goToLower u.host) (gs "0.0.0.0") = true) →
      ValidateURL false s = false) := by
  refine ⟨fun a hp => ValidateURL_eq_false_of_parse_none a hp,
    fun a u hp h1 h2 => ValidateURL_eq_false_of_bad_scheme a hp h1 h2,
    fun u hp hmem => ValidateURL_eq_false_of_dangerous hp ?_⟩
  rcases hmem with h | h | h
  · exact ⟨gs "localhost", by simp [dangerousDomains], h⟩
  · exact ⟨gs "127.0.0.1", by simp [dangerousDomains], h⟩
  · exact ⟨gs "0.0.0.0", by simp [dangerousDomains], h⟩

/-- Witness for the amended C8: `ftp://files.com` is rejected for its
scheme and `http://localhost` is rejected for its loopback host. -/
theorem url_validation_rejects_untrusted_witness :
    ValidateURL false (gs "ftp://files.com") = false ∧
    ValidateURL false (gs "http://localhost") = false :=
  ⟨(url_validation_rejects_untrusted (gs "ftp://files.com")).2.1 false
      ⟨gs "ftp", [], gs "files.com", []⟩ (by decide) (by decide) (by decide),
   (url_validation_rejects_untrusted (gs "http://localhost")).2.2
      ⟨gs "http", [], gs "localhost", []⟩ (by decide) (Or.inl (by decide))⟩

/-- C4: a record whose canonical URL parses with the `javascript:` scheme is
dropped by the funnel's URL-validation step: the store is unchanged and no
bounty is passed to `Save`. -/
theorem javascript_scheme_never_saved (cfg : FunnelConfig) (reachable : GoStr → Bool)
    (scfg : ScoringConfig) (pcfg : PaymentConfig) (now : Int) (st : Store) (b : Bounty)
    (h : ∃ u, goParseRequestURI (NormalizeURL b.url) = some u ∧ u.scheme = gs "javascript") :
    processBounty cfg reachable scfg pcfg now st b = (st, none) := by
  rcases h with ⟨u, hp, hsch⟩
  have hv : ValidateURL cfg.allowLocalURLs (NormalizeURL b.url) = false :=
    ValidateURL_eq_false_of_bad_scheme _ hp (by rw [hsch]; decide) (by rw [hsch]; decide)
  simp [processBounty, hv]

/-- A concrete record carrying a `javascript:` URL. -/
def jsBounty : Bounty where
  id := gs "js-1"
  title := gs "Evil record"
  platform := gs "GITHUB"
  reward := gs "100"
  currency := gs "USD"
  url := gs "javascript:alert(1)"
  createdAt := 0
  score := 0
  description := gs "payload"
  tags := []
  expiresAt := none
  paymentType := gs "fiat"

/-- Witness for C4: the `javascript:alert(1)` record never reaches
persistence. -/
theorem javascript_scheme_never_saved_witness :
    processBounty ⟨false, false⟩ (fun _ => true) defaultScoringConfig defaultPaymentConfig 0
      [] jsBounty = ([], none) :=
  javascript_scheme_never_saved ⟨false, false⟩ (fun _ => true) defaultScoringConfig
    defaultPaymentConfig 0 [] jsBounty
    ⟨⟨gs "javascript", gs "alert(1", [], []⟩, by decide, rfl⟩

/-- C5: feeding a record whose canonical URL is already persisted through
the funnel is a no-op: the store is unchanged (so every stored record's
fields are unchanged), nothing is passed to `Save`, and `IsNew` stays
`false` for that URL. -/
theorem duplicate_url_is_noop (cfg : FunnelConfig) (reachable : GoStr → Bool)
    (scfg : ScoringConfig) (pcfg : PaymentConfig) (now : Int) (st : Store) (b : Bounty)
    (h : containsKey st (NormalizeURL b.url) = true) :
    processBounty cfg reachable scfg pcfg now st b = (st, none) ∧
    IsNew st (NormalizeURL b.url) = false := by
  have hnew : IsNew st (NormalizeURL b.url) = false := by simp [IsNew, h]
  refine ⟨?_, hnew⟩
  simp only [processBounty]
  split
  · rfl
  · split
    · rfl
    · simp [hnew]

/-- A concrete already-persisted record. -/
def dupBounty : Bounty where
  id := gs "gh-7"
  title := gs "Fix the flaky build"
  platform := gs "GITHUB"
  reward := gs "250"
  currency := gs "USDC"
  url := gs "https://github.com/org/repo/issues/7"
  createdAt := 0
  score := 0
  description := gs "stored"
  tags := [gs "active"]
  expiresAt := none
  paymentType := gs "crypto"

/-- Witness for C5: re-funneling the already-persisted URL changes nothing
and `IsNew` remains `false`. -/
theorem duplicate_url_is_noop_witness :
    processBounty ⟨false, false⟩ (fun _ => true) defaultScoringConfig defaultPaymentConfig 0
      [(gs "https://github.com/org/repo/issues/7", dupBounty)] dupBounty =
      ([(gs "https://github.com/org/repo/issues/7", dupBounty)], none) ∧
    IsNew [(gs "https://github.com/org/repo/issues/7", dupBounty)]
      (NormalizeURL dupBounty.url) = false :=
  duplicate_url_is_noop ⟨false, false⟩ (fun _ => true) defaultScoringConfig
    defaultPaymentConfig 0 [(gs "https://github.com/org/repo/issues/7", dupBounty)] dupBounty
    (by decide)

/-- C6: a bounty titled "Urgent: Fix Security Bug" paying USDC, created
now, with no tags and a platform that earns no platform bonus, scores at
least 160 under the default configurations (50 crypto + 30 urgency +
15 dev-task + 25 security + 40 recency). -/
theorem urgent_security_fix_scores_160
    (idv reward url desc pt platform : GoStr) (now score0 : Int) (exp : Option Int)
    (h1 : hasSubstring (goToUpper platform) (gs "SUPERTEAM") = false)
    (h2 : hasSubstring (goToUpper platform) (gs "BOUNTYCASTER") = false)
    (h3 : hasSubstring (goToUpper platform) (gs "IMMUNEFI") = false)
    (h4 : hasSubstring (goToUpper platform) (gs "HACKEN") = false) :
    160 ≤ CalculateUrgency defaultScoringConfig defaultPaymentConfig now
      { id := idv, title := gs "Urgent: Fix Security Bug", platform := platform,
        reward := reward, currency := gs "USDC", url := url, createdAt := now,
        score := score0, description := desc, tags := [], expiresAt := exp,
        paymentType := pt } := by
  have e1 : containsCurrency (gs "USDC") defaultPaymentConfig.cryptoCurrencies = true := by decide
  have e2 : containsAny (goToUpper (gs "Urgent: Fix Security Bug"))
      defaultScoringConfig.urgencyKeywords = true := by decide
  have e3 : containsAny (goToUpper (gs "Urgent: Fix Security Bug"))
      defaultScoringConfig.devTaskKeywords = true := by decide
  have e4 : containsAny (goToUpper (gs "Urgent: Fix Security Bug"))
      defaultScoringConfig.automationKeywords = false := by decide
  have e5 : containsAny (goToUpper (gs "Urgent: Fix Security Bug"))
      defaultScoringConfig.securityKeywords = true := by decide
  have e6 : containsAny (goToUpper (gs "Urgent: Fix Security Bug"))
      defaultScoringConfig.auditKeywords = false := by decide
  simp only [CalculateUrgency, e1, e2, e3, e4, e5, e6, h1, h2, h3, h4, sub_self,
    tagBonusList, Bool.or_self, if_true, if_false]
  norm_num

/-- Witness for C6: the empty platform name carries no platform bonus. -/
theorem urgent_security_fix_scores_160_witness :
    160 ≤ CalculateUrgency defaultScoringConfig defaultPaymentConfig 0
      { id := gs "w6", title := gs "Urgent: Fix Security Bug", platform := gs "",
        reward := gs "", currency := gs "USDC", url := gs "", createdAt := 0,
        score := 0, description := gs "", tags := [], expiresAt := none,
        paymentType := gs "" } :=
  urgent_security_fix_scores_160 (gs "w6") (gs "") (gs "") (gs "") (gs "") (gs "") 0 0 none
    (by decide) (by decide) (by decide) (by decide)

set_option maxHeartbeats 1000000 in
/-- C7: all else equal, a bounty whose currency matches the crypto tier
never scores below one whose currency matches only the fiat tier. -/
theorem crypto_tier_not_below_fiat_tier (scfg : ScoringConfig) (pcfg : PaymentConfig)
    (now : Int) (b : Bounty) (c1 c2 : GoStr)
    (h1 : containsCurrency c1 pcfg.cryptoCurrencies = true)
    (h2 : containsCurrency c2 pcfg.cryptoCurrencies = false)
    (h3 : containsCurrency c2 pcfg.p2pMethods = false)
    (h4 : containsCurrency c2 pcfg.fiatMethods = true) :
    CalculateUrgency scfg pcfg now { b with currency := c2 } ≤
      CalculateUrgency scfg pcfg now { b with currency := c1 } := by
  simp only [CalculateUrgency, h1, h2, h3, h4, reduceIte]
  omega

/-- Witness for C7: `USDC` (crypto tier) against `USD` (fiat tier only)
with the default payment configuration. -/
theorem crypto_tier_not_below_fiat_tier_witness :
    CalculateUrgency defaultScoringConfig defaultPaymentConfig 0
      { dupBounty with currency := gs "USD" } ≤
    CalculateUrgency defaultScoringConfig defaultPaymentConfig 0
      { dupBounty with currency := gs "USDC" } :=
  crypto_tier_not_below_fiat_tier defaultScoringConfig defaultPaymentConfig 0 dupBounty
    (gs "USDC") (gs "USD") (by decide) (by decide) (by decide) (by decide)

/-- An item accepted by the code but not an absolute URL: GitHub-style
validation admits a rooted path for `html_url`. -/
def rootPathIssue : GitHubIssue where
  title := gs "Example issue"
  htmlURL := gs "/issues/1"
  createdAt := gs "2023-01-01T00:00:00Z"
  body := gs ""

/-- An item whose title is non-empty but blank, rejected by the code. -/
def blankTitleIssue : GitHubIssue where
  title := gs " "
  htmlURL := gs "https://github.com/org/repo/issues/2"
  createdAt := gs "2023-01-01T00:00:00Z"
  body := gs ""

/-- C3 counterexample: the claimed acceptance condition is wrong in both
directions — an item whose URL is the rooted path `/issues/1` (not an
absolute URL) is accepted, and an item whose title is the non-empty blank
`" "` is rejected although it satisfies every claimed condition. -/
theorem validate_issue_claim_counterexample :
    (validateGitHubIssue rootPathIssue = .ok () ∧ claimValidAccepts rootPathIssue = false) ∧
    (validateGitHubIssue blankTitleIssue ≠ .ok () ∧ claimValidAccepts blankTitleIssue = true) := by
  refine ⟨⟨?_, ?_⟩, ?_, ?_⟩ <;> decide

/-- C3 (amended): the validator accepts an item iff its title is non-blank
(after trimming whitespace) and at most 500 characters, its URL is
non-blank and accepted by Go's request-URI parser (an absolute URI or a
rooted path), its creation timestamp parses as RFC3339, and neither title
nor body matches the case-insensitive injection patterns (script tags, the
`javascript:` scheme, `onerror`/`onclick`/`onload` handler attributes). -/
theorem validate_issue_accepts_iff (issue : GitHubIssue) :
    validateGitHubIssue issue = .ok () ↔
      (goTrimSpace issue.title ≠ [] ∧ issue.title.length ≤ 500 ∧
       goTrimSpace issue.htmlURL ≠ [] ∧ (goParseRequestURI issue.htmlURL).isSome = true ∧
       goTrimSpace issue.createdAt ≠ [] ∧ rfc3339Parses issue.createdAt = true ∧
       containsScriptTags issue.title = false ∧ containsScriptTags issue.body = false) := by
  unfold validateGitHubIssue
  split_ifs with h1 h2 h3 h4 h5 h6 h7 <;>
    simp_all [Nat.not_lt, Bool.not_eq_true, Bool.not_eq_false]
  · intro _ ht
    rcases h7 with h | h
    · simp [h] at ht
    · exact h
  · exact Option.isSome_iff_ne_none.mpr h3

/-- A plainly valid item for the amended C3. -/
def plainIssue : GitHubIssue where
  title := gs "Improve retry backoff"
  htmlURL := gs "https://github.com/org/repo/issues/12"
  createdAt := gs "2024-02-29T10:30:00+01:00"
  body := gs "Steady work"

/-- Witness for the amended C3: a plainly valid item is accepted. -/
theorem validate_issue_accepts_iff_witness :
    validateGitHubIssue plainIssue = .ok () :=
  (validate_issue_accepts_iff plainIssue).mpr (by decide)
